import Mathlib

/-!
Verification model of rtr_moveit's `RTRPlanningContext`
(src/rtr_moveit/src/rtr_planning_context.cpp).

The planning context resolves a motion-planning request against a precomputed
roadmap: it is configured once (loading roadmap configurations and poses and
checking dimensions), then per solve call it resolves goal constraints to
roadmap state IDs, resolves a start configuration, and iterates the resolved
goal candidates through an external search engine under a wall-clock deadline.

Modelling conventions:
* Numeric values (joint angles, times, distances) live in an arbitrary
  `LinearOrderedCommRing R`.  The source performs only addition, subtraction,
  multiplication, absolute value and order comparisons on its `double`/`float`
  values, so the embedding is polymorphic; concrete witnesses instantiate
  `R := ℤ`.  Joint angles are measured in units of 2⁻⁴⁸ radians, which makes
  the IEEE-754 double constant `M_PI = 884279719003555 · 2⁻⁴⁸` the exact ring
  element `884279719003555`.
* External collaborators (ROS wall clock, constraint samplers, the RapidPlan
  planner interface, scene conversion) are oracle functions bundled in records;
  successive `ros::Time::now()` reads are `clock 0`, `clock 1`, … indexed by a
  call counter threaded through the definitions.
* The mutable members of the C++ class are an explicit state record, updated
  functionally.  The goal-resolution sampling loop, bounded in the source only
  by the wall-clock deadline, takes an explicit fuel bound.
-/

namespace RtrMoveit

/-- A joint configuration (`rtr::Config`): a vector of joint values. -/
abbrev Config (R : Type) := List R

/-- An occupied-space voxel (`rtr::Voxel`); its contents are opaque to the
planning context, which only forwards the voxel set to the search engine. -/
abbrev Voxel := ℕ × ℕ × ℕ

/-- A roadmap state pose (`rtr::Transform`); opaque to the planning context,
which only checks that the loaded pose set is non-empty. -/
abbrev Pose := ℕ

/-- Discriminant of a `RapidPlanGoal`; the planning context only ever builds
`STATE_IDS` goals (rtr_planning_context.cpp line 231). -/
inductive GoalType
  | STATE_IDS
deriving DecidableEq

/-- A resolved planning goal: the discriminant and the matched roadmap state
IDs (indices into the loaded roadmap configuration set). -/
structure RapidPlanGoal where
  type : GoalType
  state_ids : List ℕ
deriving DecidableEq

/-- The MoveIt error-code values the planning context produces
(`moveit_msgs::MoveItErrorCodes`). -/
inductive MoveItResult
  | SUCCESS
  | FAILURE
  | PLANNING_FAILED
  | TIMED_OUT
deriving DecidableEq

/-- A goal constraint (`moveit_msgs::Constraints`).  Its contents are consumed
only by the external constraint samplers, so the embedding keeps it opaque. -/
structure Constraints where
  id : ℕ
deriving DecidableEq

/-- The mutable members of the C++ `RTRPlanningContext` that the modelled
operations read or write. -/
structure RTRPlanningContext (R : Type) where
  configured : Bool
  joint_model_names : List String
  roadmap_configs : List (Config R)
  roadmap_poses : List Pose
  goals : List RapidPlanGoal
  goal_states : List (Config R)
deriving DecidableEq

section Model

variable {R : Type} [LinearOrderedCommRing R]

/-- Joint-space L1 distance between two configurations: the sum of absolute
joint differences.  Used by the spec-modelled `findClosestConfigs`. -/
def configDistance (a b : Config R) : R :=
  (List.zipWith (fun x y => |x - y|) a b).sum

/-- Insertion step of the insertion sort used by `findClosestConfigs`. -/
def insertLe {β : Type} (le : β → β → Bool) (a : β) : List β → List β
  | [] => [a]
  | b :: bs => if le a b then a :: b :: bs else b :: insertLe le a bs

/-- Insertion sort by a boolean comparison. -/
def sortLe {β : Type} (le : β → β → Bool) : List β → List β
  | [] => []
  | b :: bs => insertLe le b (sortLe le bs)

/-- Modelled from the spec: the body of `findClosestConfigs` lives in
`rtr_moveit/roadmap_util.h`, which is not among the sources; only its call
site (rtr_planning_context.cpp line 271) is.  Spec §4.4 step (c): "Search the
Roadmap Configuration Set for the nearest matches to this vector under a
joint-space distance metric …, subject to: (i) a maximum count of returned
matches …, and (ii) a maximum admissible distance threshold".  The function
returns the position-as-ID indices of the up-to-`maxStates` admissible
(distance ≤ `maxDist`) roadmap configurations nearest to `sample`, together
with their distances. -/
def findClosestConfigs (sample : Config R) (configs : List (Config R))
    (maxStates : ℕ) (maxDist : R) : List ℕ × List R :=
  let admissible := configs.enum.filter fun p => decide (configDistance sample p.2 ≤ maxDist)
  let sorted := sortLe
    (fun p q => decide (configDistance sample p.2 ≤ configDistance sample q.2)) admissible
  let best := sorted.take maxStates
  (best.map Prod.fst, best.map fun p => configDistance sample p.2)

/-- The admissibility threshold `allowed_joint_distance = M_PI`
(rtr_planning_context.cpp line 228).  With joint angles in units of 2⁻⁴⁸
radians, the IEEE-754 double value of `M_PI` is exactly this integer. -/
def allowed_joint_distance : R := 884279719003555

/-- The maximum number of matched goal states `max_goal_states`
(rtr_planning_context.cpp line 230). -/
def max_goal_states : ℕ := 1

/-- External collaborators and request inputs of one solve call:
the ROS wall clock (successive `ros::Time::now()` reads, indexed by call
count), the union constraint sampler per goal constraint, the RapidPlan
planner interface `solve`, the scene-conversion output
`planningSceneToRtrCollisionVoxels`, and the fields of `request_` and of the
planning scene that the solve path reads. -/
structure SolveOracle (R : Type) where
  clock : ℕ → R
  sample : Constraints → ℕ → Option (Config R)
  engine : Config R → RapidPlanGoal → List Voxel → R → Bool × List (Config R)
  collision_voxels : List Voxel
  allowed_planning_time : R
  goal_constraints : List Constraints
  request_joint_state : List (String × R)
  scene_joint_positions : List R

/-- `RTRPlanningContext::getRapidPlanGoal` (lines 225-279): repeatedly, while
`ros::Time::now() < terminate_plan_time_`, draw a sample satisfying the
constraint (sampler construction, lines 234-255, is delegated to the external
constraint_samplers library and represented by the oracle), match it against
the roadmap configuration set with `findClosestConfigs`, and return the first
non-empty match list as a `STATE_IDS` goal together with the sampled
configuration.  `fuel` bounds the loop, which the source bounds only by the
deadline; the second result is the next clock index. -/
def getRapidPlanGoal (O : SolveOracle R) (roadmap_configs : List (Config R))
    (terminate_plan_time : R) (c : Constraints) :
    ℕ → ℕ → Option (RapidPlanGoal × Config R) × ℕ
  | 0, k => (none, k)
  | fuel + 1, k =>
    if O.clock k < terminate_plan_time then
      match O.sample c k with
      | none => getRapidPlanGoal O roadmap_configs terminate_plan_time c fuel (k + 1)
      | some sample_config =>
        if (findClosestConfigs sample_config roadmap_configs
            max_goal_states allowed_joint_distance).1.isEmpty then
          getRapidPlanGoal O roadmap_configs terminate_plan_time c fuel (k + 1)
        else
          (some (⟨GoalType.STATE_IDS, (findClosestConfigs sample_config roadmap_configs
            max_goal_states allowed_joint_distance).1⟩, sample_config), k + 1)
    else (none, k + 1)

/-- The loop of `RTRPlanningContext::initRapidPlanGoals` (lines 205-214):
resolve each goal constraint independently, collecting the resolved goals and
their sampled goal states in order; unresolved constraints contribute
nothing. -/
def resolveGoals (O : SolveOracle R) (roadmap_configs : List (Config R))
    (terminate_plan_time : R) (fuel : ℕ) :
    List Constraints → ℕ → List RapidPlanGoal × List (Config R) × ℕ
  | [], k => ([], [], k)
  | c :: cs, k =>
    match getRapidPlanGoal O roadmap_configs terminate_plan_time c fuel k with
    | (none, k1) => resolveGoals O roadmap_configs terminate_plan_time fuel cs k1
    | (some (g, gstate), k1) =>
      let rest := resolveGoals O roadmap_configs terminate_plan_time fuel cs k1
      (g :: rest.1, gstate :: rest.2.1, rest.2.2)

/-- Diagnostic outcome of `initRapidPlanGoals`: the source logs
"Goal constraints are empty" (line 217) and "Failed to extract any goals from
constraints" (line 219) as distinct errors. -/
inductive GoalDiag
  | emptyConstraints
  | noGoalsExtracted
  | ok
deriving DecidableEq

/-- `RTRPlanningContext::initRapidPlanGoals` (lines 201-223).  The resolved
goals and goal states are appended to the incoming member lists `goals_` and
`goal_states_` (the source pushes onto the members without clearing them);
success requires a non-empty constraint list and a non-empty resulting goal
list. -/
def initRapidPlanGoals (O : SolveOracle R) (roadmap_configs : List (Config R))
    (terminate_plan_time : R) (fuel : ℕ) (goal_constraints : List Constraints)
    (goals0 : List RapidPlanGoal) (goal_states0 : List (Config R)) (k : ℕ) :
    GoalDiag × List RapidPlanGoal × List (Config R) × ℕ :=
  let r := resolveGoals O roadmap_configs terminate_plan_time fuel goal_constraints k
  let goals := goals0 ++ r.1
  let goal_states := goal_states0 ++ r.2.1
  if goal_constraints.isEmpty then (GoalDiag.emptyConstraints, goals, goal_states, r.2.2)
  else if goals.isEmpty then (GoalDiag.noGoalsExtracted, goals, goal_states, r.2.2)
  else (GoalDiag.ok, goals, goal_states, r.2.2)

/-- The nested matching loops of `RTRPlanningContext::initStartState`
(lines 290-293): for each active joint name of the planning group (outer
loop), append the position of every request joint-state entry carrying that
name (inner loop over the request's parallel name/position arrays). -/
def assembleStartConfig (joint_model_names : List String)
    (joint_state : List (String × R)) : Config R :=
  match joint_model_names with
  | [] => []
  | jn :: rest =>
    ((joint_state.filter fun np => decide (np.1 = jn)).map Prod.snd)
      ++ assembleStartConfig rest joint_state

/-- `RTRPlanningContext::initStartState` (lines 281-314).  If the request
carries joint-state positions, assemble the start configuration in active
joint order and fail unless its length equals the active joint count
(lines 294-298); otherwise fall back to the planning scene's current joint
positions.  (The member `start_state_` is also written by the source but read
by no modelled operation.) -/
def initStartState (joint_model_names : List String)
    (joint_state : List (String × R)) (scene_joint_positions : List R) :
    Option (Config R) :=
  if joint_state.isEmpty then some scene_joint_positions
  else
    let start_config := assembleStartConfig joint_model_names joint_state
    if start_config.length = joint_model_names.length then some start_config
    else none

/-- Outcome of the candidate loop of `solve`: the error code, the solution
path handed to the trajectory conversion (if any), the goal candidates passed
to the external search engine in order, and the next clock index. -/
structure LoopOut (R : Type) where
  result : MoveItResult
  trajectory : Option (List (Config R))
  engine_calls : List RapidPlanGoal
  kEnd : ℕ
deriving DecidableEq

/-- The candidate loop of `RTRPlanningContext::solve` (lines 107-136): for
each goal in order, recompute the remaining time and stop with `TIMED_OUT` if
it is non-positive; otherwise invoke the external search engine.  Engine
success with an empty path is skipped non-fatally (lines 123-127); success
with a non-empty path converts that path and breaks with `SUCCESS`
(lines 128-133); engine failure moves on to the next goal.  An exhausted loop
leaves the `PLANNING_FAILED` set at line 109. -/
def solveLoop (O : SolveOracle R) (terminate_plan_time : R)
    (start_config : Config R) : List RapidPlanGoal → ℕ → LoopOut R
  | [], k => ⟨MoveItResult.PLANNING_FAILED, none, [], k⟩
  | goal :: goals, k =>
    let timeout := (terminate_plan_time - O.clock k) * 1000
    if timeout ≤ 0 then ⟨MoveItResult.TIMED_OUT, none, [], k⟩
    else
      let res := O.engine start_config goal O.collision_voxels timeout
      if res.1 then
        if res.2.isEmpty then
          let rest := solveLoop O terminate_plan_time start_config goals (k + 1)
          ⟨rest.result, rest.trajectory, goal :: rest.engine_calls, rest.kEnd⟩
        else ⟨MoveItResult.SUCCESS, some res.2, [goal], k + 1⟩
      else
        let rest := solveLoop O terminate_plan_time start_config goals (k + 1)
        ⟨rest.result, rest.trajectory, goal :: rest.engine_calls, rest.kEnd⟩

/-- Result of one solve call: the error code, the solution path handed to the
external trajectory conversion `pathRtrToRobotTrajectory` (line 132), the
trace of goal candidates passed to the engine, the `planning_time` out
parameter (`none` on the early-return paths, which leave it unassigned: the
source writes it only at line 138), the goal-resolution diagnostic, and the
updated context state. -/
structure SolveOutput (R : Type) where
  result : MoveItResult
  trajectory : Option (List (Config R))
  engine_calls : List RapidPlanGoal
  planning_time : Option R
  goal_diag : Option GoalDiag
  state : RTRPlanningContext R
deriving DecidableEq

/-- `RTRPlanningContext::solve(trajectory, planning_time)` (lines 78-140):
compute the deadline from the first clock read and the allowed planning time;
fail if the context is unconfigured; resolve goals (appending to the `goals_`
and `goal_states_` members); resolve the start state; then run the candidate
loop.  The scene conversion (line 100) has no failure path and its voxel
output is the oracle's `collision_voxels`. -/
def solve (O : SolveOracle R) (s : RTRPlanningContext R) (fuel : ℕ) :
    SolveOutput R :=
  let start_time := O.clock 0
  let terminate_plan_time := start_time + O.allowed_planning_time
  if s.configured = false then
    ⟨MoveItResult.FAILURE, none, [], none, none, s⟩
  else
    let gi := initRapidPlanGoals O s.roadmap_configs terminate_plan_time fuel
      O.goal_constraints s.goals s.goal_states 1
    let s1 := { s with goals := gi.2.1, goal_states := gi.2.2.1 }
    if gi.1 = GoalDiag.ok then
      match initStartState s.joint_model_names O.request_joint_state
          O.scene_joint_positions with
      | none => ⟨MoveItResult.FAILURE, none, [], none, some gi.1, s1⟩
      | some start_config =>
        let lo := solveLoop O terminate_plan_time start_config gi.2.1 gi.2.2.2
        ⟨lo.result, lo.trajectory, lo.engine_calls,
          some (O.clock lo.kEnd - start_time), some gi.1, s1⟩
    else ⟨MoveItResult.FAILURE, none, [], none, some gi.1, s1⟩

/-- External collaborator responses consumed by `configure`: presence of the
planning scene, the planning group's active joint names, and the planner
interface's readiness, initialization outcome, and roadmap data. -/
structure ConfigureEnv (R : Type) where
  scene_present : Bool
  active_joint_names : List String
  engine_ready : Bool
  engine_init_ok : Bool
  roadmap_configs_result : Bool × List (Config R)
  roadmap_poses_result : Bool × List Pose

/-- Calls `configure` makes on the external planner interface, recorded in
order. -/
inductive ExtCall
  | isReadyCall
  | initCall
  | getRoadmapConfigsCall
  | getRoadmapTransformsCall
deriving DecidableEq

/-- `RTRPlanningContext::configure` (lines 157-199): require a planning
scene; load the group's active joint names; require the planner interface
ready (initializing it if not); load the roadmap configurations, failing if
the load fails or the set is empty; fail if the first configuration's length
differs from the active joint count (line 184 checks `roadmap_configs_[0]`
only); load the roadmap poses, failing if the load fails or the set is empty;
on full success set `configured_` (it is never reset).  The third component
records the planner-interface calls made. -/
def configure (e : ConfigureEnv R) (s : RTRPlanningContext R) :
    MoveItResult × RTRPlanningContext R × List ExtCall :=
  if e.scene_present = false then (MoveItResult.FAILURE, s, [])
  else
    let s1 := { s with joint_model_names := e.active_joint_names }
    let readyCalls :=
      if e.engine_ready then [ExtCall.isReadyCall]
      else [ExtCall.isReadyCall, ExtCall.initCall]
    if e.engine_ready = false ∧ e.engine_init_ok = false then
      (MoveItResult.FAILURE, s1, readyCalls)
    else
      let s2 := { s1 with roadmap_configs := e.roadmap_configs_result.2 }
      let calls2 := readyCalls ++ [ExtCall.getRoadmapConfigsCall]
      if e.roadmap_configs_result.1 = false ∨ e.roadmap_configs_result.2.isEmpty then
        (MoveItResult.FAILURE, s2, calls2)
      else if (e.roadmap_configs_result.2.headI).length ≠ e.active_joint_names.length then
        (MoveItResult.FAILURE, s2, calls2)
      else
        let s3 := { s2 with roadmap_poses := e.roadmap_poses_result.2 }
        let calls3 := calls2 ++ [ExtCall.getRoadmapTransformsCall]
        if e.roadmap_poses_result.1 = false ∨ e.roadmap_poses_result.2.isEmpty then
          (MoveItResult.FAILURE, s3, calls3)
        else (MoveItResult.SUCCESS, { s3 with configured := true }, calls3)

end Model

/-!  Concrete fixtures, instantiated at `R := ℤ`, used by the closed witness and
counterexample theorems below.  Joint values are in units of 2⁻⁴⁸ radians. -/

/-- Oracle for the first-success-wins scenario: three constraints resolving to
the three roadmap states; the engine fails on state 0, succeeds with a
non-empty path on state 1, and is never reached for state 2. -/
def oracleFS : SolveOracle ℤ where
  clock := fun _ => 0
  sample := fun c _ => some [(c.id : ℤ)]
  engine := fun _ g _ _ => if g.state_ids = [1] then (true, [[9]]) else (false, [])
  collision_voxels := []
  allowed_planning_time := 10
  goal_constraints := [⟨0⟩, ⟨1⟩, ⟨2⟩]
  request_joint_state := []
  scene_joint_positions := [0]

/-- A configured context over a three-state one-joint roadmap. -/
def ctxFS : RTRPlanningContext ℤ :=
  ⟨true, ["joint_a"], [[0], [1], [2]], [0, 1, 2], [], []⟩

/-- Oracle for the empty-path scenario: the engine reports success with an
empty path on state 0 and failure elsewhere. -/
def oracleEP : SolveOracle ℤ where
  clock := fun _ => 0
  sample := fun _ _ => none
  engine := fun _ g _ _ => if g.state_ids = [0] then (true, []) else (false, [])
  collision_voxels := []
  allowed_planning_time := 5
  goal_constraints := []
  request_joint_state := []
  scene_joint_positions := []

/-- Oracle for the goal-resolution scenario: the sampler returns the origin
configuration, which matches roadmap state 0 at distance zero. -/
def oracleGR : SolveOracle ℤ where
  clock := fun _ => 0
  sample := fun _ _ => some [0]
  engine := fun _ _ _ _ => (false, [])
  collision_voxels := []
  allowed_planning_time := 1
  goal_constraints := [⟨0⟩]
  request_joint_state := []
  scene_joint_positions := [0]

/-- Oracle for the expired-deadline scenario: allowed planning time zero. -/
def oracleXD : SolveOracle ℤ where
  clock := fun _ => 0
  sample := fun _ _ => some [0]
  engine := fun _ _ _ _ => (true, [[0]])
  collision_voxels := []
  allowed_planning_time := 0
  goal_constraints := [⟨0⟩]
  request_joint_state := []
  scene_joint_positions := [0]

/-- A configured context over a one-state one-joint roadmap with empty goal
members. -/
def ctxOne : RTRPlanningContext ℤ := ⟨true, ["joint_a"], [[0]], [0], [], []⟩

/-- Oracle for the stale-goal scenario: the single constraint resolves to
state 0, the engine always fails. -/
def oracleSG : SolveOracle ℤ where
  clock := fun _ => 0
  sample := fun _ _ => some [0]
  engine := fun _ _ _ _ => (false, [])
  collision_voxels := []
  allowed_planning_time := 10
  goal_constraints := [⟨0⟩]
  request_joint_state := []
  scene_joint_positions := [0]

/-- A configured context still holding a goal candidate (state ID 7) left over
from an earlier solve call; the roadmap has only state 0. -/
def ctxStale : RTRPlanningContext ℤ :=
  ⟨true, ["joint_a"], [[0]], [0], [⟨GoalType.STATE_IDS, [7]⟩], []⟩

/-- Oracle for the unresolved-constraints scenario: an advancing clock, a
sampler that never produces a sample, and a deadline three ticks away. -/
def oracleUR : SolveOracle ℤ where
  clock := fun j => (j : ℤ)
  sample := fun _ _ => none
  engine := fun _ _ _ _ => (true, [[0]])
  collision_voxels := []
  allowed_planning_time := 3
  goal_constraints := [⟨0⟩]
  request_joint_state := []
  scene_joint_positions := [0]

/-- Configure environment whose roadmap configuration set is ragged: the
first vector matches the single-joint group, the second does not. -/
def envRagged : ConfigureEnv ℤ :=
  ⟨true, ["joint_a"], true, true, (true, [[0], [0, 1]]), (true, [0])⟩

/-- A fresh, unconfigured context. -/
def ctxBlank : RTRPlanningContext ℤ := ⟨false, [], [], [], [], []⟩

/-- Configure environment with consistent single-joint roadmap data. -/
def envGood : ConfigureEnv ℤ :=
  ⟨true, ["joint_a"], true, true, (true, [[0]]), (true, [5])⟩

/-- The context produced by a successful `configure` with `envGood`. -/
def ctxConfigured : RTRPlanningContext ℤ := ⟨true, ["joint_a"], [[0]], [5], [], []⟩

/-- Oracle for the missing-start-joint scenario: the request names only
`joint_a` of a two-joint group. -/
def oracleMJ : SolveOracle ℤ where
  clock := fun _ => 0
  sample := fun _ _ => some [0, 0]
  engine := fun _ _ _ _ => (true, [[0, 0]])
  collision_voxels := []
  allowed_planning_time := 10
  goal_constraints := [⟨0⟩]
  request_joint_state := [("joint_a", 1)]
  scene_joint_positions := [0, 0]

/-- A configured two-joint context. -/
def ctxTwo : RTRPlanningContext ℤ := ⟨true, ["joint_a", "joint_b"], [[0, 0]], [0], [], []⟩

section Theorems

variable {R : Type} [LinearOrderedCommRing R]

lemma mem_of_mem_insertLe {β : Type} {le : β → β → Bool} {a x : β} {l : List β}
    (h : x ∈ insertLe le a l) : x = a ∨ x ∈ l := by
  induction l with
  | nil => simp only [insertLe, List.mem_singleton] at h; exact Or.inl h
  | cons b bs ih =>
    simp only [insertLe] at h
    by_cases hle : le a b
    · simpa [hle] using h
    · simp only [hle] at h
      rcases List.mem_cons.mp h with hb | htl
      · exact Or.inr (hb ▸ List.mem_cons_self b bs)
      · rcases ih htl with h1 | h2
        · exact Or.inl h1
        · exact Or.inr (List.mem_cons_of_mem b h2)

lemma mem_of_mem_sortLe {β : Type} {le : β → β → Bool} {x : β} {l : List β}
    (h : x ∈ sortLe le l) : x ∈ l := by
  induction l with
  | nil => simp [sortLe] at h
  | cons b bs ih =>
    simp only [sortLe] at h
    rcases mem_of_mem_insertLe h with h1 | h2
    · exact h1 ▸ List.mem_cons_self b bs
    · exact List.mem_cons_of_mem b (ih h2)

lemma findClosestConfigs_length_le (sample : Config R) (configs : List (Config R))
    (maxStates : ℕ) (maxDist : R) :
    (findClosestConfigs sample configs maxStates maxDist).1.length ≤ maxStates := by
  simp only [findClosestConfigs, List.length_map, List.length_take]
  exact min_le_left _ _

lemma findClosestConfigs_mem {sample : Config R} {configs : List (Config R)}
    {maxStates : ℕ} {maxDist : R} {i : ℕ}
    (h : i ∈ (findClosestConfigs sample configs maxStates maxDist).1) :
    ∃ c, configs[i]? = some c ∧ configDistance sample c ≤ maxDist := by
  simp only [findClosestConfigs, List.mem_map] at h
  obtain ⟨p, hp, hpi⟩ := h
  have hsorted := List.mem_of_mem_take hp
  have hfilter := mem_of_mem_sortLe hsorted
  have hmem := List.mem_filter.mp hfilter
  have hdist : configDistance sample p.2 ≤ maxDist := of_decide_eq_true hmem.2
  have hget : configs[p.1]? = some p.2 := List.mem_enum_iff_getElem?.mp hmem.1
  exact ⟨p.2, hpi ▸ hget, hdist⟩

/-- C3: For every goal constraint resolved by the Goal Resolver, the emitted
Goal Candidate carries at most one matched roadmap state ID
(`max_goal_states = 1`), and every matched roadmap configuration lies within
the admissibility threshold `allowed_joint_distance` (the double value of
`M_PI`, i.e. π radians up to the double rounding) of the sampled
configuration returned by the constraint sampler. -/
theorem getRapidPlanGoal_single_admissible_match (O : SolveOracle R)
    (roadmap_configs : List (Config R)) (terminate_plan_time : R) (c : Constraints)
    (fuel k k' : ℕ) (goal : RapidPlanGoal) (sample_config : Config R)
    (h : getRapidPlanGoal O roadmap_configs terminate_plan_time c fuel k =
      (some (goal, sample_config), k')) :
    goal.state_ids.length ≤ 1 ∧
    ∀ i ∈ goal.state_ids, ∃ rcfg, roadmap_configs[i]? = some rcfg ∧
      configDistance sample_config rcfg ≤ allowed_joint_distance := by
  induction fuel generalizing k with
  | zero => exact absurd (congrArg Prod.fst h) (by simp [getRapidPlanGoal])
  | succ n ih =>
    rw [getRapidPlanGoal] at h
    split at h
    · split at h
      · exact ih (k + 1) h
      · rename_i cfg hs
        split at h
        · exact ih (k + 1) h
        · simp only [Prod.mk.injEq, Option.some.injEq] at h
          obtain ⟨⟨hgoal, hcfg⟩, -⟩ := h
          subst hcfg
          constructor
          · rw [← hgoal]
            exact findClosestConfigs_length_le _ _ _ _
          · intro i hi
            rw [← hgoal] at hi
            exact findClosestConfigs_mem hi
    · simp at h

/-- Witness for C3: a sampler hit at the origin resolves roadmap state 0 with
a single matched ID at distance zero. -/
theorem getRapidPlanGoal_single_admissible_match_witness :
    (RapidPlanGoal.mk GoalType.STATE_IDS [0]).state_ids.length ≤ 1 ∧
    ∀ i ∈ (RapidPlanGoal.mk GoalType.STATE_IDS [0]).state_ids,
      ∃ rcfg, [[(0 : ℤ)]][i]? = some rcfg ∧
        configDistance [(0 : ℤ)] rcfg ≤ allowed_joint_distance :=
  getRapidPlanGoal_single_admissible_match oracleGR [[0]] 1 ⟨0⟩ 1 0 1
    ⟨GoalType.STATE_IDS, [0]⟩ [0] (by decide)

lemma solveLoop_timeout_pos (O : SolveOracle R) {terminate_plan_time : R} {k : ℕ}
    (h : O.clock k < terminate_plan_time) :
    ¬(terminate_plan_time - O.clock k) * 1000 ≤ 0 :=
  not_le.mpr (mul_pos (sub_pos.mpr h) (by norm_num))

lemma solveLoop_first_success (O : SolveOracle R) (terminate_plan_time : R)
    (start_config : Config R) (gs₁ : List RapidPlanGoal) (g : RapidPlanGoal)
    (gs₂ : List RapidPlanGoal) (p : List (Config R))
    (hfail : ∀ g' ∈ gs₁, ∀ t : R,
      (O.engine start_config g' O.collision_voxels t).1 = false ∨
      (O.engine start_config g' O.collision_voxels t).2 = [])
    (hsucc : ∀ t : R, O.engine start_config g O.collision_voxels t = (true, p))
    (hp : p ≠ []) (hclock : ∀ j, O.clock j < terminate_plan_time) (k : ℕ) :
    solveLoop O terminate_plan_time start_config (gs₁ ++ g :: gs₂) k =
      ⟨MoveItResult.SUCCESS, some p, gs₁ ++ [g], k + gs₁.length + 1⟩ := by
  induction gs₁ generalizing k with
  | nil =>
    simp only [List.nil_append, solveLoop]
    rw [if_neg (solveLoop_timeout_pos O (hclock k)), hsucc]
    simp [List.isEmpty_iff, hp]
  | cons g' rest ih =>
    have ih' := ih (fun x hx t => hfail x (List.mem_cons_of_mem g' hx) t)
    simp only [List.cons_append, solveLoop, List.append_eq]
    rw [if_neg (solveLoop_timeout_pos O (hclock k))]
    have hd := hfail g' (List.mem_cons_self g' rest)
      ((terminate_plan_time - O.clock k) * 1000)
    rcases hres : O.engine start_config g' O.collision_voxels
        ((terminate_plan_time - O.clock k) * 1000) with ⟨b, q⟩
    rw [hres] at hd
    cases b with
    | false =>
      simp only [Bool.false_eq_true, if_false]
      rw [ih' (k + 1)]
      simp only [List.cons_append, List.length_cons]
      congr 1
      omega
    | true =>
      have hq : q = [] := by
        rcases hd with hd | hd
        · exact absurd hd (by simp)
        · exact hd
      subst hq
      simp only [if_true, List.isEmpty_nil, if_pos]
      rw [ih' (k + 1)]
      simp only [List.cons_append, List.length_cons]
      congr 1
      omega

/-- C1: On a configured context, when goal resolution yields the candidate
list `gs₁ ++ g :: gs₂` in which every candidate of `gs₁` is answered by the
external search engine with failure or an empty path and `g` is answered with
success and the non-empty path `p`, and the deadline never expires, `solve`
reports SUCCESS with the trajectory converted from `p`, and the engine is
invoked exactly on `gs₁ ++ [g]` in resolution order — never on a candidate
after `g`. -/
theorem solve_first_success_wins (O : SolveOracle R) (s : RTRPlanningContext R)
    (fuel : ℕ) (gs₁ : List RapidPlanGoal) (g : RapidPlanGoal)
    (gs₂ : List RapidPlanGoal) (sts : List (Config R)) (k₁ : ℕ)
    (start_config : Config R) (p : List (Config R))
    (hconf : s.configured = true)
    (hinit : initRapidPlanGoals O s.roadmap_configs
        (O.clock 0 + O.allowed_planning_time) fuel O.goal_constraints s.goals
        s.goal_states 1 = (GoalDiag.ok, gs₁ ++ g :: gs₂, sts, k₁))
    (hstart : initStartState s.joint_model_names O.request_joint_state
        O.scene_joint_positions = some start_config)
    (hfail : ∀ g' ∈ gs₁, ∀ t : R,
      (O.engine start_config g' O.collision_voxels t).1 = false ∨
      (O.engine start_config g' O.collision_voxels t).2 = [])
    (hsucc : ∀ t : R, O.engine start_config g O.collision_voxels t = (true, p))
    (hp : p ≠ [])
    (hclock : ∀ j, O.clock j < O.clock 0 + O.allowed_planning_time) :
    (solve O s fuel).result = MoveItResult.SUCCESS ∧
    (solve O s fuel).trajectory = some p ∧
    (solve O s fuel).engine_calls = gs₁ ++ [g] := by
  have key := solveLoop_first_success O (O.clock 0 + O.allowed_planning_time)
    start_config gs₁ g gs₂ p hfail hsucc hp hclock k₁
  simp only [solve, hconf, Bool.true_eq_false, if_false, hinit, hstart, key]
  simp

/-- Witness for C1: three resolved candidates; the engine fails on the first,
succeeds with path `[[9]]` on the second, and the third is never tried. -/
theorem solve_first_success_wins_witness :
    (solve oracleFS ctxFS 1).result = MoveItResult.SUCCESS ∧
    (solve oracleFS ctxFS 1).trajectory = some [[9]] ∧
    (solve oracleFS ctxFS 1).engine_calls =
      [⟨GoalType.STATE_IDS, [0]⟩] ++ [⟨GoalType.STATE_IDS, [1]⟩] :=
  solve_first_success_wins oracleFS ctxFS 1
    [⟨GoalType.STATE_IDS, [0]⟩] ⟨GoalType.STATE_IDS, [1]⟩ [⟨GoalType.STATE_IDS, [2]⟩]
    [[0], [1], [2]] 4 [0] [[9]]
    (by decide) (by decide) (by decide)
    (by intro g' hg' t
        have : g' = ⟨GoalType.STATE_IDS, [0]⟩ := by
          simpa using hg'
        subst this
        exact Or.inl rfl)
    (fun _ => rfl) (by decide) (fun _ => (by decide : (0 : ℤ) < 0 + 10))

/-- C2: If the external search engine reports success for a goal candidate
but returns a zero-length solution path, the candidate loop does not produce
SUCCESS from that candidate; it records the engine call and continues with
the remaining candidates, its outcome entirely that of the rest of the
loop. -/
theorem solveLoop_empty_path_not_success (O : SolveOracle R)
    (terminate_plan_time : R) (start_config : Config R) (goal : RapidPlanGoal)
    (goals : List RapidPlanGoal) (k : ℕ)
    (htime : ¬(terminate_plan_time - O.clock k) * 1000 ≤ 0)
    (hengine : O.engine start_config goal O.collision_voxels
      ((terminate_plan_time - O.clock k) * 1000) = (true, [])) :
    solveLoop O terminate_plan_time start_config (goal :: goals) k =
      { solveLoop O terminate_plan_time start_config goals (k + 1) with
        engine_calls := goal ::
          (solveLoop O terminate_plan_time start_config goals (k + 1)).engine_calls } := by
  simp only [solveLoop]
  rw [if_neg htime, hengine]
  rfl

/-- Witness for C2: a success-with-empty-path engine answer on the first of
two candidates defers the outcome to the second candidate. -/
theorem solveLoop_empty_path_not_success_witness :
    solveLoop oracleEP 5 [0] [⟨GoalType.STATE_IDS, [0]⟩, ⟨GoalType.STATE_IDS, [1]⟩] 0 =
      { solveLoop oracleEP 5 [0] [⟨GoalType.STATE_IDS, [1]⟩] 1 with
        engine_calls := ⟨GoalType.STATE_IDS, [0]⟩ ::
          (solveLoop oracleEP 5 [0] [⟨GoalType.STATE_IDS, [1]⟩] 1).engine_calls } :=
  solveLoop_empty_path_not_success oracleEP 5 [0] ⟨GoalType.STATE_IDS, [0]⟩
    [⟨GoalType.STATE_IDS, [1]⟩] 0 (by decide) (by decide)

lemma getRapidPlanGoal_fst_none (O : SolveOracle R) (roadmap_configs : List (Config R))
    (terminate_plan_time : R) (c : Constraints) (fuel k : ℕ)
    (h : terminate_plan_time ≤ O.clock k) :
    (getRapidPlanGoal O roadmap_configs terminate_plan_time c fuel k).1 = none := by
  cases fuel with
  | zero => rfl
  | succ n => rw [getRapidPlanGoal, if_neg (not_lt.mpr h)]

lemma resolveGoals_nil (O : SolveOracle R) (roadmap_configs : List (Config R))
    (terminate_plan_time : R) (fuel : ℕ)
    (h : ∀ j, terminate_plan_time ≤ O.clock j) :
    ∀ (cs : List Constraints) (k : ℕ),
      (resolveGoals O roadmap_configs terminate_plan_time fuel cs k).1 = [] ∧
      (resolveGoals O roadmap_configs terminate_plan_time fuel cs k).2.1 = [] := by
  intro cs
  induction cs with
  | nil => intro k; exact ⟨rfl, rfl⟩
  | cons c cs ih =>
    intro k
    have hn := getRapidPlanGoal_fst_none O roadmap_configs terminate_plan_time c fuel k (h k)
    rcases hg : getRapidPlanGoal O roadmap_configs terminate_plan_time c fuel k with ⟨r, k1⟩
    rw [hg] at hn
    subst hn
    simp only [resolveGoals, hg]
    exact ih k1

/-- Counterexample for C4: on a configured context with no leftover goal
candidates, a solve call entered with the deadline already passed (allowed
planning time zero) returns FAILURE, not TIMED_OUT as the claim states: goal
resolution performs no sampling iterations under the expired deadline, so the
call fails in goal extraction before reaching the candidate loop that reports
TIMED_OUT. -/
theorem solve_expired_deadline_not_timed_out :
    (solve oracleXD ctxOne 1).result = MoveItResult.FAILURE ∧
    ¬(solve oracleXD ctxOne 1).result = MoveItResult.TIMED_OUT := by decide

/-- C4 (amended): For every solve call entered when the planning deadline has
already passed (allowed planning time zero or negative, clock monotone), no
goal candidate is passed to the external search engine; on a context with no
leftover candidates the result is FAILURE — goal resolution cannot produce
candidates under an expired deadline — and the elapsed-time out parameter is
left unassigned. -/
theorem solve_expired_deadline_failure (O : SolveOracle R)
    (s : RTRPlanningContext R) (fuel : ℕ)
    (hconf : s.configured = true) (hg : s.goals = [])
    (ha : O.allowed_planning_time ≤ 0) (hclock : ∀ j, O.clock 0 ≤ O.clock j) :
    (solve O s fuel).result = MoveItResult.FAILURE ∧
    (solve O s fuel).engine_calls = [] ∧
    (solve O s fuel).planning_time = none := by
  have hterm : ∀ j, O.clock 0 + O.allowed_planning_time ≤ O.clock j := fun j => by
    have := hclock j
    linarith
  have hres := resolveGoals_nil O s.roadmap_configs
    (O.clock 0 + O.allowed_planning_time) fuel hterm O.goal_constraints 1
  simp only [solve, hconf, Bool.true_eq_false, if_false, initRapidPlanGoals,
    hres.1, hres.2, hg, List.append_nil, List.nil_append]
  cases hce : O.goal_constraints.isEmpty
  · simp
  · simp

/-- Witness for C4 (amended): allowed planning time zero on a fresh configured
context yields FAILURE with no engine calls and no planning time. -/
theorem solve_expired_deadline_failure_witness :
    (solve oracleXD ctxOne 1).engine_calls = [] ∧
    (solve oracleXD ctxOne 1).planning_time = none :=
  (solve_expired_deadline_failure oracleXD ctxOne 1 rfl rfl (by decide)
    (fun _ => (by decide : (0 : ℤ) ≤ 0))).2

/-- C5 (code bug in the source): goal candidates are retained in the `goals_`
member across solve calls — `initRapidPlanGoals` appends without clearing —
so a solve call on a context holding a stale candidate (state ID 7, not even
present in the one-state roadmap) tries that stale candidate first, before
the candidate resolved from this call's constraint (state ID 0), and keeps
both in the member afterwards. -/
theorem solve_stale_goal_reused :
    (solve oracleSG ctxStale 1).engine_calls =
      [⟨GoalType.STATE_IDS, [7]⟩, ⟨GoalType.STATE_IDS, [0]⟩] ∧
    (solve oracleSG ctxStale 1).state.goals =
      [⟨GoalType.STATE_IDS, [7]⟩, ⟨GoalType.STATE_IDS, [0]⟩] ∧
    (solve oracleSG ctxStale 1).result = MoveItResult.PLANNING_FAILED := by decide

/-- C9 (code bug in the source): on a solve call whose constraints all fail
to resolve, a stale candidate left in `goals_` makes `initRapidPlanGoals`
report success (diagnostic `ok`, so neither of the two distinguished error
diagnostics is emitted), and the call then times out in the candidate loop:
the result is TIMED_OUT, not FAILURE as the claim states. -/
theorem solve_unresolved_goals_stale_not_failure :
    (solve oracleUR ctxStale 3).goal_diag = some GoalDiag.ok ∧
    (solve oracleUR ctxStale 3).result = MoveItResult.TIMED_OUT ∧
    ¬(solve oracleUR ctxStale 3).result = MoveItResult.FAILURE ∧
    (solve oracleUR ctxStale 3).engine_calls = [] := by decide

/-- Counterexample for C6: `configure` checks the length of the first roadmap
configuration vector only (`roadmap_configs_[0]`), so a ragged configuration
set whose first vector matches the joint count is accepted: configure reports
SUCCESS although not every loaded vector has length equal to the planning
group's active joint count. -/
theorem configure_ragged_roadmap_accepted :
    (configure envRagged ctxBlank).1 = MoveItResult.SUCCESS ∧
    ¬∀ c ∈ (configure envRagged ctxBlank).2.1.roadmap_configs,
        c.length = (configure envRagged ctxBlank).2.1.joint_model_names.length := by
  decide

omit [LinearOrderedCommRing R] in
/-- C6 (amended): After every successful configure, the loaded roadmap
configuration set is non-empty and its first vector's length equals the
planning group's active joint count (subsequent vectors are not checked);
every unsuccessful configure reports FAILURE and leaves the configured flag
as it was. -/
theorem configure_first_config_length_checked (e : ConfigureEnv R)
    (s : RTRPlanningContext R) :
    ((configure e s).1 = MoveItResult.SUCCESS →
      (configure e s).2.1.roadmap_configs = e.roadmap_configs_result.2 ∧
      (configure e s).2.1.roadmap_configs ≠ [] ∧
      (configure e s).2.1.roadmap_configs.headI.length =
        (configure e s).2.1.joint_model_names.length) ∧
    ((configure e s).1 ≠ MoveItResult.SUCCESS →
      (configure e s).1 = MoveItResult.FAILURE ∧
      (configure e s).2.1.configured = s.configured) := by
  simp only [configure]
  split_ifs with h1 h2 h3 h4 h5 <;>
    simp_all [not_or, List.isEmpty_iff]

/-- Witness for C6 (amended): a successful configure over a consistent
single-joint roadmap satisfies the first-vector length invariant. -/
theorem configure_first_config_length_checked_witness :
    (configure envGood ctxBlank).2.1.roadmap_configs = envGood.roadmap_configs_result.2 ∧
    (configure envGood ctxBlank).2.1.roadmap_configs ≠ [] ∧
    (configure envGood ctxBlank).2.1.roadmap_configs.headI.length =
      (configure envGood ctxBlank).2.1.joint_model_names.length :=
  (configure_first_config_length_checked envGood ctxBlank).1 (by decide)

/-- Counterexample for C7: `configure` has no idempotency guard — invoked on
an already successfully configured context it re-executes the configuration
work, calling the external planner interface again (readiness check, roadmap
configuration load, roadmap pose load). -/
theorem configure_rerun_redoes_work :
    ctxConfigured.configured = true ∧
    (configure envGood ctxConfigured).2.2 =
      [ExtCall.isReadyCall, ExtCall.getRoadmapConfigsCall,
        ExtCall.getRoadmapTransformsCall] := by
  decide

omit [LinearOrderedCommRing R] in
lemma configure_success_conditions (e : ConfigureEnv R) (s : RTRPlanningContext R)
    (h : (configure e s).1 = MoveItResult.SUCCESS) :
    ¬e.scene_present = false ∧
    ¬(e.engine_ready = false ∧ e.engine_init_ok = false) ∧
    ¬(e.roadmap_configs_result.1 = false ∨ e.roadmap_configs_result.2.isEmpty = true) ∧
    ¬e.roadmap_configs_result.2.headI.length ≠ e.active_joint_names.length ∧
    ¬(e.roadmap_poses_result.1 = false ∨ e.roadmap_poses_result.2.isEmpty = true) := by
  simp only [configure] at h
  by_cases h1 : e.scene_present = false
  · rw [if_pos h1] at h
    simp at h
  · rw [if_neg h1] at h
    by_cases h2 : e.engine_ready = false ∧ e.engine_init_ok = false
    · rw [if_pos h2] at h
      simp at h
    · rw [if_neg h2] at h
      by_cases h3 : e.roadmap_configs_result.1 = false ∨ e.roadmap_configs_result.2.isEmpty = true
      · rw [if_pos h3] at h
        simp at h
      · rw [if_neg h3] at h
        by_cases h4 : e.roadmap_configs_result.2.headI.length ≠ e.active_joint_names.length
        · rw [if_pos h4] at h
          simp at h
        · rw [if_neg h4] at h
          by_cases h5 : e.roadmap_poses_result.1 = false ∨ e.roadmap_poses_result.2.isEmpty = true
          · rw [if_pos h5] at h
            simp at h
          · exact ⟨h1, h2, h3, h4, h5⟩

omit [LinearOrderedCommRing R] in
lemma configure_eq_of_success_conditions (e : ConfigureEnv R) (s : RTRPlanningContext R)
    (h1 : ¬e.scene_present = false)
    (h2 : ¬(e.engine_ready = false ∧ e.engine_init_ok = false))
    (h3 : ¬(e.roadmap_configs_result.1 = false ∨ e.roadmap_configs_result.2.isEmpty = true))
    (h4 : ¬e.roadmap_configs_result.2.headI.length ≠ e.active_joint_names.length)
    (h5 : ¬(e.roadmap_poses_result.1 = false ∨ e.roadmap_poses_result.2.isEmpty = true)) :
    configure e s = (MoveItResult.SUCCESS,
      ⟨true, e.active_joint_names, e.roadmap_configs_result.2,
        e.roadmap_poses_result.2, s.goals, s.goal_states⟩,
      (if e.engine_ready then [ExtCall.isReadyCall]
        else [ExtCall.isReadyCall, ExtCall.initCall]) ++
        [ExtCall.getRoadmapConfigsCall] ++ [ExtCall.getRoadmapTransformsCall]) := by
  simp only [configure]
  rw [if_neg h1, if_neg h2, if_neg h3, if_neg h4, if_neg h5]

omit [LinearOrderedCommRing R] in
/-- C7 (amended): the configured flag gates `solve`, not `configure`; a
repeated configure re-executes every step, but with unchanged collaborator
responses it reports success again, leaves the context state unchanged and
repeats exactly the same external calls. -/
theorem configure_rerun_same_result (e : ConfigureEnv R) (s : RTRPlanningContext R)
    (h : (configure e s).1 = MoveItResult.SUCCESS) :
    configure e ((configure e s).2.1) = configure e s := by
  obtain ⟨h1, h2, h3, h4, h5⟩ := configure_success_conditions e s h
  rw [configure_eq_of_success_conditions e s h1 h2 h3 h4 h5]
  rw [configure_eq_of_success_conditions e _ h1 h2 h3 h4 h5]

/-- Witness for C7 (amended): re-running configure after a successful
configure from a blank context reproduces the same result triple. -/
theorem configure_rerun_same_result_witness :
    configure envGood ((configure envGood ctxBlank).2.1) = configure envGood ctxBlank :=
  configure_rerun_same_result envGood ctxBlank (by decide)

omit [LinearOrderedCommRing R] in
lemma assembleStartConfig_length_le (names : List String) (req : List (String × R))
    (h : ∀ jn, (req.filter fun np => decide (np.1 = jn)).length ≤ 1) :
    (assembleStartConfig names req).length ≤ names.length := by
  induction names with
  | nil => simp [assembleStartConfig]
  | cons jn rest ih =>
    simp only [assembleStartConfig, List.length_append, List.length_map, List.length_cons]
    have h1 := h jn
    omega

omit [LinearOrderedCommRing R] in
lemma assembleStartConfig_length_lt (names : List String) (req : List (String × R))
    (jn₀ : String) (hmem : jn₀ ∈ names) (habs : jn₀ ∉ req.map Prod.fst)
    (hdup : ∀ jn, (req.filter fun np => decide (np.1 = jn)).length ≤ 1) :
    (assembleStartConfig names req).length < names.length := by
  induction names with
  | nil => simp at hmem
  | cons jn rest ih =>
    simp only [assembleStartConfig, List.length_append, List.length_map, List.length_cons]
    rcases List.mem_cons.mp hmem with he | hm
    · have h0 : (req.filter fun np => decide (np.1 = jn)).length = 0 := by
        rw [List.length_eq_zero]
        apply List.filter_eq_nil_iff.mpr
        intro np hnp
        simp only [decide_eq_true_eq]
        intro hnp1
        exact habs (he ▸ hnp1 ▸ List.mem_map_of_mem Prod.fst hnp)
      have hle := assembleStartConfig_length_le rest req hdup
      omega
    · have h1 := hdup jn
      have h2 := ih hm
      omega

/-- Counterexample for C8: the active joint `joint_b` is absent from the
request's named joint assignment, yet the Start Resolver succeeds — the
duplicated `joint_a` entry makes the assembled vector's length match the
joint count, masking the missing joint. -/
theorem initStartState_duplicate_masks_missing :
    "joint_b" ∉ ([("joint_a", (1 : ℤ)), ("joint_a", 2)].map Prod.fst) ∧
    initStartState ["joint_a", "joint_b"] [("joint_a", (1 : ℤ)), ("joint_a", 2)] [0, 0] =
      some [1, 2] := by
  decide

/-- C8 (amended): For every planning request carrying an explicit joint-state
assignment in which no active joint name is matched more than once, if any
active joint of the planning group is absent from the request's named
assignment, the Start Resolver fails and the solve call returns FAILURE
before the external search engine is invoked. -/
theorem solve_missing_start_joint_failure (O : SolveOracle R)
    (s : RTRPlanningContext R) (fuel : ℕ) (hconf : s.configured = true)
    (hreq : O.request_joint_state ≠ [])
    (habs : ∃ jn ∈ s.joint_model_names, jn ∉ O.request_joint_state.map Prod.fst)
    (hdup : ∀ jn,
      (O.request_joint_state.filter fun np => decide (np.1 = jn)).length ≤ 1) :
    (solve O s fuel).result = MoveItResult.FAILURE ∧
    (solve O s fuel).engine_calls = [] := by
  obtain ⟨jn₀, hmem, hnot⟩ := habs
  have hlt := assembleStartConfig_length_lt s.joint_model_names
    O.request_joint_state jn₀ hmem hnot hdup
  have hstart : initStartState s.joint_model_names O.request_joint_state
      O.scene_joint_positions = none := by
    simp only [initStartState]
    rw [if_neg (by simpa [List.isEmpty_iff] using hreq), if_neg (Nat.ne_of_lt hlt)]
  simp only [solve, hconf, Bool.true_eq_false, if_false, hstart]
  split
  · simp
  · simp

/-- Witness for C8 (amended): a two-joint group whose request names only
`joint_a` fails the solve call with no engine invocation. -/
theorem solve_missing_start_joint_failure_witness :
    (solve oracleMJ ctxTwo 1).result = MoveItResult.FAILURE ∧
    (solve oracleMJ ctxTwo 1).engine_calls = [] :=
  solve_missing_start_joint_failure oracleMJ ctxTwo 1 rfl (by decide)
    ⟨"joint_b", by decide, by decide⟩ (fun _ => List.length_filter_le _ _)

omit [LinearOrderedCommRing R] in
lemma filter_key_length_le_one (jn : String) (req : List (String × R))
    (h : (req.map Prod.fst).Nodup) :
    (req.filter fun np => decide (np.1 = jn)).length ≤ 1 := by
  induction req with
  | nil => simp
  | cons np rest ih =>
    simp only [List.map_cons, List.nodup_cons] at h
    by_cases he : np.1 = jn
    · have hrest : rest.filter (fun np => decide (np.1 = jn)) = [] := by
        apply List.filter_eq_nil_iff.mpr
        intro q hq
        simp only [decide_eq_true_eq]
        intro hq1
        exact h.1 ((he.trans hq1.symm) ▸ List.mem_map_of_mem Prod.fst hq)
      simp [List.filter_cons, he, hrest]
    · simpa [List.filter_cons, he] using ih h.2

omit [LinearOrderedCommRing R] in
lemma filter_key_eq_of_perm (jn : String) {req₁ req₂ : List (String × R)}
    (hperm : req₁.Perm req₂) (h : (req₁.map Prod.fst).Nodup) :
    req₁.filter (fun np => decide (np.1 = jn)) =
      req₂.filter (fun np => decide (np.1 = jn)) := by
  have hp := hperm.filter (fun np => decide (np.1 = jn))
  have hl := filter_key_length_le_one jn req₁ h
  rcases hf : req₁.filter (fun np => decide (np.1 = jn)) with _ | ⟨x, xs⟩
  · rw [hf] at hp
    rw [hf]
    exact (List.Perm.eq_nil hp.symm).symm
  · rw [hf] at hp hl
    rw [hf]
    have hxs : xs = [] := by
      cases xs with
      | nil => rfl
      | cons y ys => simp at hl
    subst hxs
    exact (List.perm_singleton.mp hp.symm).symm

omit [LinearOrderedCommRing R] in
lemma assembleStartConfig_perm (names : List String) {req₁ req₂ : List (String × R)}
    (hperm : req₁.Perm req₂) (h : (req₁.map Prod.fst).Nodup) :
    assembleStartConfig names req₁ = assembleStartConfig names req₂ := by
  induction names with
  | nil => rfl
  | cons jn rest ih =>
    simp only [assembleStartConfig]
    rw [filter_key_eq_of_perm jn hperm h, ih]

/-- Counterexample for C10: with a duplicated joint name in the request, the
assembled start vector depends on the order of the request entries — two
permutations of the same request produce different successful start
vectors. -/
theorem initStartState_order_dependent_duplicates :
    ([("joint_a", (1 : ℤ)), ("joint_a", 2)]).Perm [("joint_a", (2 : ℤ)), ("joint_a", 1)] ∧
    initStartState ["joint_a", "joint_b"] [("joint_a", (1 : ℤ)), ("joint_a", 2)] [0, 0] ≠
      initStartState ["joint_a", "joint_b"] [("joint_a", (2 : ℤ)), ("joint_a", 1)] [0, 0] := by
  decide

omit [LinearOrderedCommRing R] in
/-- C10 (amended): When the request carries an explicit joint-state assignment
whose joint names are duplicate-free, the start configuration is assembled in
the planning group's active joint order (the outer iteration is over the
group's joint names), so the Start Resolver's output is invariant under
permutations of the request entries. -/
theorem initStartState_order_independent (joint_model_names : List String)
    (req₁ req₂ : List (String × R)) (scene_joint_positions : List R)
    (hperm : req₁.Perm req₂) (hnodup : (req₁.map Prod.fst).Nodup) :
    initStartState joint_model_names req₁ scene_joint_positions =
      initStartState joint_model_names req₂ scene_joint_positions := by
  have hemp : req₁.isEmpty = req₂.isEmpty := by
    rcases req₁ with _ | ⟨a, l⟩
    · rw [List.Perm.eq_nil hperm.symm]
    · rcases req₂ with _ | ⟨b, m⟩
      · have hlen := hperm.length_eq
        simp at hlen
      · rfl
  simp only [initStartState]
  rw [hemp, assembleStartConfig_perm joint_model_names hperm hnodup]

/-- Witness for C10 (amended): a duplicate-free two-joint request permuted
gives the same resolved start configuration. -/
theorem initStartState_order_independent_witness :
    initStartState ["joint_a", "joint_b"] [("joint_a", (1 : ℤ)), ("joint_b", 2)] [0, 0] =
      initStartState ["joint_a", "joint_b"] [("joint_b", (2 : ℤ)), ("joint_a", 1)] [0, 0] :=
  initStartState_order_independent ["joint_a", "joint_b"] _ _ [0, 0]
    (by decide) (by decide)

end Theorems

end RtrMoveit
